import Mathlib

/-
  Shallow embedding of the USB Passthrough Manager
  (src/src/renderer/lib/usbmanager.ts) and proofs about it.

  Conventions:
  - JS numbers that hold USB identifiers are modelled as Nat.
  - JS `string | null` / `string | undefined` values are `Option String`;
    JS truthiness of a string is "nonempty".
  - JS objects used as string-keyed records (the vendor database, the
    device string cache) are association lists with insert-or-replace
    assignment, which preserves the only observable operations the source
    performs on them (lookup and keyed assignment).
  - The `lsusb` system call is an oracle parameter
    `String → String → Except Unit DeviceStrings`: `.error` models
    `execSync` throwing, `.ok` models a parsed output.  The regex
    extraction of the two strings from the raw lsusb output is folded
    into the oracle; `getDeviceStringsFromLsusb` keeps the source's
    catch-all structure around it.
  - The QMP helpers are stubs in the source ("// stub"); the spec (§6,
    §9 "Stubbed VM control channel") designates them as the external VM
    control channel.  They are modelled from the spec: `exists` queries
    the set of identifier pairs the VM reports attached, held in the
    `qmpAttached` component of the state, and add/remove calls are
    recorded as an explicit trace of `QMPCall` values.
-/

/-- JS string truthiness: a string is truthy iff it is nonempty. -/
def strTruthy (s : String) : Bool := !(s == "")

/-- Truthiness of a `string | null | undefined` value. -/
def optTruthy : Option String → Bool
  | some s => strTruthy s
  | none => false

/-- JS `x || d` for a string-or-null `x` and string default `d`. -/
def orElseStr (o : Option String) (d : String) : String :=
  match o with
  | some s => if strTruthy s then s else d
  | none => d

/-- JS `x || null` for a string-or-null-or-undefined `x`. -/
def orNull (o : Option String) : Option String :=
  match o with
  | some s => if strTruthy s then some s else none
  | none => none

/-- Lookup in a string-keyed JS record (association list, first match). -/
def recordGet {α : Type} : List (String × α) → String → Option α
  | [], _ => none
  | kv :: rest, k => if kv.1 == k then some kv.2 else recordGet rest k

/-- Keyed assignment in a string-keyed JS record: replaces the existing
binding in place, or appends a new one (JS object key order). -/
def recordSet {α : Type} : List (String × α) → String → α → List (String × α)
  | [], k, v => [(k, v)]
  | kv :: rest, k, v => if kv.1 == k then (k, v) :: rest else kv :: recordSet rest k v

/-- `Number.prototype.toString(16)` for a nonnegative integer: lowercase
hex digits, no padding, `"0"` for zero. -/
def natToHexString (n : Nat) : String := String.mk (Nat.toDigits 16 n)

/-- `String.prototype.padStart(4, "0")`. -/
def padStart4 (s : String) : String :=
  String.mk (List.replicate (4 - s.length) '0') ++ s

/-- `n.toString(16).padStart(4, "0")` as used throughout the source. -/
def toHex4 (n : Nat) : String := padStart4 (natToHexString n)

/-- Cache key format from usbmanager.ts line 117. -/
def cacheKey (vh ph : String) : String := vh ++ ":" ++ ph

/-- `DeviceStrings` (usbmanager.ts lines 13-18). -/
structure DeviceStrings where
  manufacturer : Option String
  product : Option String
deriving DecidableEq

/-- One vendor section of the Linux USB device database
(usbmanager.ts line 11). -/
structure VendorEntry where
  name : String
  devices : List (String × String)
deriving DecidableEq

/-- `LinuxDeviceDatabase` (usbmanager.ts line 11). -/
abbrev LinuxDeviceDatabase := List (String × VendorEntry)

/-- `PTSerializableDeviceInfo` (usbmanager.ts lines 20-25). -/
structure PTSerializableDeviceInfo where
  vendorId : Nat
  productId : Nat
  manufacturer : Option String
  product : Option String
deriving DecidableEq

/-- A live USB device: the fields of `device.deviceDescriptor` the
source reads. -/
structure Device where
  idVendor : Nat
  idProduct : Nat
deriving DecidableEq

/-- A call issued on the VM control channel (QMPAddDevice /
QMPRemoveDevice in the source). -/
inductive QMPCall where
  | add (vendorId productId : Nat)
  | remove (vendorId productId : Nat)
deriving DecidableEq

/-- Errors thrown by the source, as a structured type: the
"not found in cache" precondition error of
`#convertDeviceToPTSerializable` (lines 177-180) and the
"already in the passthrough list" duplicate error of
`addDeviceToPassthroughList` (lines 197-201). -/
inductive USBError where
  | stringsNotResolved (key : String)
  | duplicateDevice (manufacturer product : Option String)
deriving DecidableEq

/-- The mutable state of `USBManager` together with the externally
observable signals it reads: the loaded database, the device string
cache, the live device snapshot, the passthrough list (the source keeps
`ptDevices` and `wbConfig.config.passedThroughDevices` equal; they are
one field here), the guest online signal, and — modelled from the spec
(§6 VM control channel, §9 "Stubbed VM control channel"; the source
stubs QMPCheckIfDeviceExists) — the set of identifier pairs the VM
reports attached. -/
structure USBState where
  linuxDeviceDatabase : LinuxDeviceDatabase
  deviceStringCache : List (String × DeviceStrings)
  devices : List Device
  passedThroughDevices : List PTSerializableDeviceInfo
  qmpAttached : List (Nat × Nat)
  guestOnline : Bool
deriving DecidableEq

/-- Modelled from the spec: the source's `QMPCheckIfDeviceExists` is a
stub; per spec §6 it is the external VM control channel existence query
`exists(vendorId, productId)`, answered from the VM-reported attached
set. -/
def QMPCheckIfDeviceExists (st : USBState) (vendorId productId : Nat) : Bool :=
  st.qmpAttached.contains (vendorId, productId)

/-- `getDeviceStringsFromLsusb` (lines 304-326): runs the lsusb oracle
and catches any failure, returning nulled fields. -/
def getDeviceStringsFromLsusb (lsusb : String → String → Except Unit DeviceStrings)
    (vidHex pidHex : String) : DeviceStrings :=
  match lsusb vidHex pidHex with
  | Except.ok ds => ds
  | Except.error _ => { manufacturer := none, product := none }

/-- The cache-hit formatting of `stringifyDevice` (line 120). -/
def formatCached (vh ph : String) (ds : DeviceStrings) : String :=
  "[" ++ vh ++ ":" ++ ph ++ "] " ++ orElseStr ds.manufacturer "Unknown Vendor"
    ++ " | " ++ orElseStr ds.product "Unknown Product"

/-- `vendor?.devices[productIdHex]` (line 124). -/
def dbProductLookup (vendor0 : Option VendorEntry) (ph : String) : Option String :=
  match vendor0 with
  | some v => recordGet v.devices ph
  | none => none

/-- Lines 130-133: `if (!product) product = getDeviceStringsFromLsusb(...).product!`.
Returns the resulting product value and the number of lsusb invocations. -/
def fallbackProductStep (lsusb : String → String → Except Unit DeviceStrings)
    (vh ph : String) (product0 : Option String) : Option String × Nat :=
  if optTruthy product0 then (product0, 0)
  else ((getDeviceStringsFromLsusb lsusb vh ph).product, 1)

/-- Lines 135-141: `if (!vendor?.name) { const ds = ...; if (ds.manufacturer)
vendor = { name: ds.manufacturer!, devices: {} }; }`.  Returns the
resulting vendor value and the number of lsusb invocations. -/
def fallbackVendorStep (lsusb : String → String → Except Unit DeviceStrings)
    (vh ph : String) (vendor0 : Option VendorEntry) : Option VendorEntry × Nat :=
  if optTruthy (vendor0.map VendorEntry.name) then (vendor0, 0)
  else
    (match (getDeviceStringsFromLsusb lsusb vh ph).manufacturer with
      | some m => if strTruthy m then some { name := m, devices := [] } else vendor0
      | none => vendor0, 1)

/-- The cache entry stored on line 147:
`\x7b manufacturer: vendor?.name || null, product: product || null \x7d`. -/
def storedEntry (vendor1 : Option VendorEntry) (product1 : Option String) : DeviceStrings :=
  { manufacturer := orNull (vendor1.map VendorEntry.name), product := orNull product1 }

/-- The first-call formatting of `stringifyDevice` (line 150):
`[vh:ph] ${vendor ? vendor.name : "Unknown Vendor"} | ${product ? product : "Unknown Product"}`. -/
def missDisplay (vh ph : String) (vendor1 : Option VendorEntry) (product1 : Option String) : String :=
  "[" ++ vh ++ ":" ++ ph ++ "] "
    ++ (match vendor1 with
        | some v => v.name
        | none => "Unknown Vendor")
    ++ " | "
    ++ (match product1 with
        | some p => if strTruthy p then p else "Unknown Product"
        | none => "Unknown Product")

/-- Result of `stringifyDevice`: the display string, the updated manager
state, and the number of lsusb fallback invocations performed by this
call. -/
structure StringifyResult where
  display : String
  state : USBState
  fallbackCalls : Nat
deriving DecidableEq

/-- The cache-miss path of `stringifyDevice` (lines 123-150): database
lookups, the two conditional lsusb fallbacks, the cache store of
line 147 and the first-call formatting of line 150. -/
def stringifyMiss (lsusb : String → String → Except Unit DeviceStrings)
    (st : USBState) (device : Device) : StringifyResult :=
  let vendorIdHex := toHex4 device.idVendor
  let productIdHex := toHex4 device.idProduct
  let vendor0 := recordGet st.linuxDeviceDatabase vendorIdHex
  let product0 := dbProductLookup vendor0 productIdHex
  let ps := fallbackProductStep lsusb vendorIdHex productIdHex product0
  let vs := fallbackVendorStep lsusb vendorIdHex productIdHex vendor0
  { display := missDisplay vendorIdHex productIdHex vs.1 ps.1,
    state := { st with
      deviceStringCache := recordSet st.deviceStringCache
        (cacheKey vendorIdHex productIdHex) (storedEntry vs.1 ps.1) },
    fallbackCalls := ps.2 + vs.2 }

/-- `stringifyDevice` (lines 112-151).  The surrounding try/catch of the
source is unreachable here because `getDeviceStringsFromLsusb` already
catches every oracle failure internally, exactly as in the source. -/
def stringifyDevice (lsusb : String → String → Except Unit DeviceStrings)
    (st : USBState) (device : Device) : StringifyResult :=
  let vendorIdHex := toHex4 device.idVendor
  let productIdHex := toHex4 device.idProduct
  let key := cacheKey vendorIdHex productIdHex
  match recordGet st.deviceStringCache key with
  | some cached =>
    { display := formatCached vendorIdHex productIdHex cached, state := st, fallbackCalls := 0 }
  | none => stringifyMiss lsusb st device

/-- `stringifyPTSerializableDevice` (lines 158-164). -/
def stringifyPTSerializableDevice (device : PTSerializableDeviceInfo) : String :=
  let vendorIdHex := toHex4 device.vendorId
  let productIdHex := toHex4 device.productId
  "[" ++ vendorIdHex ++ ":" ++ productIdHex ++ "] "
    ++ orElseStr device.manufacturer "Unknown Vendor"
    ++ " | " ++ orElseStr device.product "Unknown Product"

/-- `#convertDeviceToPTSerializable` (lines 171-187). -/
def convertDeviceToPTSerializable (st : USBState) (device : Device) :
    Except USBError PTSerializableDeviceInfo :=
  let productIdHex := toHex4 device.idProduct
  let vendorIdHex := toHex4 device.idVendor
  match recordGet st.deviceStringCache (cacheKey vendorIdHex productIdHex) with
  | none => Except.error (USBError.stringsNotResolved (cacheKey vendorIdHex productIdHex))
  | some ds =>
    Except.ok { vendorId := device.idVendor, productId := device.idProduct,
                manufacturer := ds.manufacturer, product := ds.product }

/-- `isDeviceInPassthroughList` (lines 241-244). -/
def isDeviceInPassthroughList (st : USBState) (device : Device) : Except USBError Bool :=
  match convertDeviceToPTSerializable st device with
  | Except.error e => Except.error e
  | Except.ok ptDevice =>
    Except.ok (st.passedThroughDevices.any fun d =>
      d.vendorId == ptDevice.vendorId && d.productId == ptDevice.productId)

/-- `isPTDeviceConnected` (lines 251-256). -/
def isPTDeviceConnected (st : USBState) (ptDevice : PTSerializableDeviceInfo) : Bool :=
  st.devices.any fun d =>
    d.idVendor == ptDevice.vendorId && d.idProduct == ptDevice.productId

/-- Result of `addDeviceToPassthroughList`: the state after the call,
the VM control calls issued, and the error thrown, if any.  The source
throws before any mutation in the error cases, so the state is returned
unchanged there. -/
structure AddResult where
  state : USBState
  calls : List QMPCall
  thrown : Option USBError
deriving DecidableEq

/-- `addDeviceToPassthroughList` (lines 193-215): convert, reject
duplicates by exact (vendorId, productId) equality, append by full-list
replacement, then add to the VM unless it already reports the device. -/
def addDeviceToPassthroughList (st : USBState) (device : Device) : AddResult :=
  match convertDeviceToPTSerializable st device with
  | Except.error e => { state := st, calls := [], thrown := some e }
  | Except.ok ptDevice =>
    if st.passedThroughDevices.any
        (fun d => d.vendorId == ptDevice.vendorId && d.productId == ptDevice.productId) then
      { state := st, calls := [],
        thrown := some (USBError.duplicateDevice ptDevice.manufacturer ptDevice.product) }
    else
      let st1 := { st with passedThroughDevices := st.passedThroughDevices ++ [ptDevice] }
      if QMPCheckIfDeviceExists st ptDevice.vendorId ptDevice.productId then
        { state := st1, calls := [], thrown := none }
      else
        { state := st1, calls := [QMPCall.add ptDevice.vendorId ptDevice.productId], thrown := none }

/-- Result of `removeDeviceFromPassthroughList`. -/
structure RemoveResult where
  state : USBState
  calls : List QMPCall
deriving DecidableEq

/-- `removeDeviceFromPassthroughList` (lines 221-234), with the source's
filter predicate verbatim: it keeps `d` only when
`d.vendorId !== ptDevice.vendorId && d.productId !== ptDevice.productId`. -/
def removeDeviceFromPassthroughList (st : USBState) (ptDevice : PTSerializableDeviceInfo) :
    RemoveResult :=
  let newList := st.passedThroughDevices.filter fun d =>
    d.vendorId != ptDevice.vendorId && d.productId != ptDevice.productId
  let st1 := { st with passedThroughDevices := newList }
  if QMPCheckIfDeviceExists st ptDevice.vendorId ptDevice.productId then
    { state := st1, calls := [QMPCall.remove ptDevice.vendorId ptDevice.productId] }
  else
    { state := st1, calls := [] }

/-- The attach handler registered by `#setupUpdateListeners`
(lines 60-72): refresh the snapshot from the enumeration layer
(`newDevices`), resolve/log a display string for the device (which
populates the cache), then add to the VM iff the guest is online, the
device is in the passthrough list, and the VM does not already report
it.  The `.error` branch is unreachable: the preceding `stringifyDevice`
call has cached the device's key. -/
def onAttach (lsusb : String → String → Except Unit DeviceStrings)
    (newDevices : List Device) (st : USBState) (device : Device) :
    USBState × List QMPCall :=
  let st1 := { st with devices := newDevices }
  let st2 := (stringifyDevice lsusb st1 device).state
  if st2.guestOnline then
    match isDeviceInPassthroughList st2 device with
    | Except.error _ => (st2, [])
    | Except.ok inList =>
      if inList && !(QMPCheckIfDeviceExists st2 device.idVendor device.idProduct) then
        (st2, [QMPCall.add device.idVendor device.idProduct])
      else (st2, [])
  else (st2, [])

/-- The detach handler registered by `#setupUpdateListeners`
(lines 74-86): symmetric to `onAttach`, removing from the VM iff the
guest is online, the device is in the passthrough list, and the VM
reports the device attached. -/
def onDetach (lsusb : String → String → Except Unit DeviceStrings)
    (newDevices : List Device) (st : USBState) (device : Device) :
    USBState × List QMPCall :=
  let st1 := { st with devices := newDevices }
  let st2 := (stringifyDevice lsusb st1 device).state
  if st2.guestOnline then
    match isDeviceInPassthroughList st2 device with
    | Except.error _ => (st2, [])
    | Except.ok inList =>
      if inList && QMPCheckIfDeviceExists st2 device.idVendor device.idProduct then
        (st2, [QMPCall.remove device.idVendor device.idProduct])
      else (st2, [])
  else (st2, [])

/-- The body of the watcher that `#setupGuestOnlineListener` would
register (lines 93-104), run at a transition to online: for each record
of the passthrough list, in list order, add it to the VM when it is
connected and the VM does not already report it. -/
def guestOnlineReconcile (st : USBState) : List QMPCall :=
  st.passedThroughDevices.foldl
    (fun acc ptDevice =>
      if isPTDeviceConnected st ptDevice
          && !(QMPCheckIfDeviceExists st ptDevice.vendorId ptDevice.productId) then
        acc ++ [QMPCall.add ptDevice.vendorId ptDevice.productId]
      else acc)
    []

/-- The kinds of listeners the manager can register. -/
inductive ListenerKind where
  | usbAttach
  | usbDetach
  | guestOnline
deriving DecidableEq

/-- The listeners registered by `#setupUpdateListeners` (lines 59-87):
`usb.on("attach", ...)` and `usb.on("detach", ...)`. -/
def setupUpdateListenersRegs : List ListenerKind :=
  [ListenerKind.usbAttach, ListenerKind.usbDetach]

/-- The listener that `#setupGuestOnlineListener` (lines 92-105) would
register: a watch on the guest online signal. -/
def setupGuestOnlineListenerRegs : List ListenerKind :=
  [ListenerKind.guestOnline]

/-- The listeners registered by the `USBManager` constructor
(lines 40-54): it invokes only `#setupUpdateListeners` (line 51);
`#setupGuestOnlineListener` is never invoked anywhere in the
repository. -/
def constructorRegisteredListeners : List ListenerKind :=
  setupUpdateListenersRegs

/-- VM control calls issued when the guest online signal transitions
from false to true: the reconciliation sweep runs only if the
guest-online watcher was registered. -/
def onGuestOnlineTransition (registered : List ListenerKind) (st : USBState) : List QMPCall :=
  if registered.contains ListenerKind.guestOnline then guestOnlineReconcile st else []

/-- The ASCII whitespace characters the JS regex class `\s` and
`String.prototype.trim` recognize that can occur in a line (the lines
are produced by splitting on `"\n"`, so `'\n'` itself cannot occur). -/
def isJsWS (c : Char) : Bool :=
  c == ' ' || c == '\t' || c == '\r' || c == '\x0b' || c == '\x0c'

/-- A character matched by the JS regex `.` (anything but a line
terminator). -/
def isJsDot (c : Char) : Bool := !(c == '\n') && !(c == '\r')

/-- A character matched by `[0-9a-f]` under the `i` flag. -/
def isHexDigitCI (c : Char) : Bool :=
  ('0' ≤ c && c ≤ '9') || ('a' ≤ c && c ≤ 'f') || ('A' ≤ c && c ≤ 'F')

/-- `String.prototype.trim` on a line (no `'\n'` present). -/
def jsTrim (l : List Char) : List Char :=
  ((l.dropWhile isJsWS).reverse.dropWhile isJsWS).reverse

/-- `c.toLowerCase()` for one character (only ASCII letters occur). -/
def lowerChar (c : Char) : Char :=
  if 'A' ≤ c ∧ c ≤ 'Z' then Char.ofNat (c.toNat + 32) else c

/-- Greedy matching of the regex tail `\s+(.+)$` against `r`, trying the
whitespace run from its maximal length downwards (regex backtracking)
and returning the `(.+)` capture. -/
def matchSpacesNameAux (r : List Char) : Nat → Option (List Char)
  | 0 => none
  | j + 1 =>
    let t := r.drop (j + 1)
    if t ≠ [] ∧ t.all isJsDot then some t else matchSpacesNameAux r j

/-- Matching of `\s+(.+)$` against `r`: at least one whitespace
character, then a nonempty remainder of non-terminators reaching the end
of the line. -/
def matchSpacesName (r : List Char) : Option (List Char) :=
  matchSpacesNameAux r (r.takeWhile isJsWS).length

/-- Matching of `^([0-9a-f]\x7b4\x7d)\s+(.+)$/i` against a line (the
database loader applies it to the whole line for vendors and to the line
after its leading tab for devices), already composed with the
`match[1].toLowerCase()` and `match[2].trim()` the loader performs on
the captures. -/
def matchIdLine (l : List Char) : Option (String × String) :=
  let idChars := l.take 4
  if idChars.length = 4 ∧ idChars.all isHexDigitCI then
    match matchSpacesName (l.drop 4) with
    | some nameChars => some (String.mk (idChars.map lowerChar), String.mk (jsTrim nameChars))
    | none => none
  else none

/-- `vendors[currentVendor].devices[id] = name` (line 290).  The loader
only ever assigns under a `currentVendor` key it has created, so the
absent-key case cannot arise; it is a no-op here. -/
def addDeviceToVendor (db : LinuxDeviceDatabase) (cv pid name : String) : LinuxDeviceDatabase :=
  db.map fun kv =>
    if kv.1 == cv then (kv.1, { kv.2 with devices := recordSet kv.2.devices pid name })
    else kv

/-- One iteration of the loader's line loop (lines 273-293), acting on
the accumulated `(vendors, currentVendor)` pair. -/
def readDBStep (acc : LinuxDeviceDatabase × Option String) (line : String) :
    LinuxDeviceDatabase × Option String :=
  let l := line.data
  if l.head? = some '#' ∨ jsTrim l = [] then acc
  else if ¬ (l.head? = some '\t') then
    match matchIdLine l with
    | some (vid, name) => (recordSet acc.1 vid { name := name, devices := [] }, some vid)
    | none => acc
  else if ¬ ((l.drop 1).head? = some '\t') then
    match matchIdLine (l.drop 1) with
    | some (pid, name) =>
      match acc.2 with
      | some cv => (addDeviceToVendor acc.1 cv pid name, acc.2)
      | none => acc
    | none => acc
  else acc

/-- `readLinuxDeviceDatabase` (lines 266-296), applied to the text
content of the database resource (the `fs.readFileSync` I/O is outside
the model). -/
def readLinuxDeviceDatabase (content : String) : LinuxDeviceDatabase :=
  ((content.splitOn "\n").foldl readDBStep ([], none)).1

/-- The §4.1 parsing rule exactly as the spec states it (second
definition, written from the spec's words, for the refinement claim
about the loader): a non-indented line starting with a 4-hex-digit
token, whitespace and a name opens a new vendor section keyed by the
lowercase identifier; a line indented by exactly one tab with such a
token, whitespace and a name adds a product to the most recently opened
vendor section; lines beginning with `#`, blank lines, lines indented by
two or more tabs, and malformed lines contribute nothing. -/
def specParseStep (acc : LinuxDeviceDatabase × Option String) (line : String) :
    LinuxDeviceDatabase × Option String :=
  let l := line.data
  if ¬ (l.head? = some '\t') then
    match matchIdLine l with
    | some (vid, name) => (recordSet acc.1 vid { name := name, devices := [] }, some vid)
    | none => acc
  else if ¬ ((l.drop 1).head? = some '\t') then
    match matchIdLine (l.drop 1) with
    | some (pid, name) =>
      match acc.2 with
      | some cv => (addDeviceToVendor acc.1 cv pid name, acc.2)
      | none => acc
    | none => acc
  else acc

/-- The database the §4.1 parsing rule, read literally from the spec,
produces for a given text. -/
def specParseDatabase (content : String) : LinuxDeviceDatabase :=
  ((content.splitOn "\n").foldl specParseStep ([], none)).1

/-- An lsusb oracle whose every invocation fails (`execSync` throws):
the "unreachable live-fallback path" of the spec's properties. -/
def failingLsusb : String → String → Except Unit DeviceStrings :=
  fun _ _ => Except.error ()

/-- An lsusb oracle that succeeds with no information: both descriptor
strings absent. -/
def noInfoLsusb : String → String → Except Unit DeviceStrings :=
  fun _ _ => Except.ok { manufacturer := none, product := none }

/-- A manager state with everything empty and the guest offline. -/
def emptyUSBState : USBState :=
  { linuxDeviceDatabase := [], deviceStringCache := [], devices := [],
    passedThroughDevices := [], qmpAttached := [], guestOnline := false }

/-- The spec's end-to-end example database: vendor 046d "Logitech" with
product c52b "Unifying Receiver". -/
def logitechDatabase : LinuxDeviceDatabase :=
  [("046d", { name := "Logitech", devices := [("c52b", "Unifying Receiver")] })]

/-- The Logitech vendor entry of `logitechDatabase`. -/
def logitechEntry : VendorEntry :=
  { name := "Logitech", devices := [("c52b", "Unifying Receiver")] }

/-- A fresh manager state over `logitechDatabase`. -/
def logitechState : USBState := { emptyUSBState with linuxDeviceDatabase := logitechDatabase }

/-- The live device with the Logitech example identifier pair. -/
def logitechDevice : Device := { idVendor := 0x046d, idProduct := 0xc52b }

/-- A database holding a vendor entry whose name is the empty string —
producible by the loader from a vendor line whose name is all
whitespace, e.g. `"aaaa   "`. -/
def emptyNameDatabase : LinuxDeviceDatabase := [("aaaa", { name := "", devices := [] })]

/-- A fresh manager state over `emptyNameDatabase`. -/
def emptyNameState : USBState := { emptyUSBState with linuxDeviceDatabase := emptyNameDatabase }

/-- The live device whose vendor has the empty-named database entry. -/
def emptyNameDevice : Device := { idVendor := 0xaaaa, idProduct := 1 }

/-- A passthrough record with identifier pair (1, 2). -/
def recordPair12 : PTSerializableDeviceInfo :=
  { vendorId := 1, productId := 2, manufacturer := none, product := none }

/-- A passthrough record with identifier pair (1, 3): same vendorId as
`recordPair12`, different productId, so a different identifier pair. -/
def recordPair13 : PTSerializableDeviceInfo :=
  { vendorId := 1, productId := 3, manufacturer := none, product := none }

/-- A state whose passthrough list holds exactly `recordPair12`. -/
def statePair12 : USBState := { emptyUSBState with passedThroughDevices := [recordPair12] }

/-- The Logitech pair as a persisted passthrough record. -/
def logitechRecord : PTSerializableDeviceInfo :=
  { vendorId := 0x046d, productId := 0xc52b,
    manufacturer := some "Logitech", product := some "Unifying Receiver" }

/-- A state at a guest online transition: the Logitech record is
persisted, the device is connected, and the VM reports nothing
attached. -/
def guestOnlineScenario : USBState :=
  { emptyUSBState with
    devices := [logitechDevice],
    passedThroughDevices := [logitechRecord],
    guestOnline := true }

/-- The Logitech pair's device-strings cache entry. -/
def logitechStrings : DeviceStrings :=
  { manufacturer := some "Logitech", product := some "Unifying Receiver" }

/-- A state in which the Logitech pair is resolved in the cache and
already present in the passthrough list (duplicate-add scenario). -/
def duplicateAddScenario : USBState :=
  { emptyUSBState with
    deviceStringCache := [(cacheKey "046d" "c52b", logitechStrings)],
    passedThroughDevices := [logitechRecord] }

/-- A state in which the Logitech pair is resolved in the cache and the
passthrough list is empty. -/
def resolvedCacheScenario : USBState :=
  { emptyUSBState with deviceStringCache := [(cacheKey "046d" "c52b", logitechStrings)] }

lemma recordGet_recordSet_self {α : Type} (m : List (String × α)) (k : String) (v : α) :
    recordGet (recordSet m k v) k = some v := by
  induction m with
  | nil => simp [recordSet, recordGet]
  | cons kv rest ih =>
    by_cases h : kv.1 == k
    · simp [recordSet, recordGet, h]
    · simp only [recordSet, recordGet, h]
      simp only [Bool.false_eq_true, if_false, recordGet, h, ih]

lemma stringifyDevice_hit (lsusb : String → String → Except Unit DeviceStrings)
    (st : USBState) (device : Device) (cached : DeviceStrings)
    (h : recordGet st.deviceStringCache
      (cacheKey (toHex4 device.idVendor) (toHex4 device.idProduct)) = some cached) :
    stringifyDevice lsusb st device =
      { display := formatCached (toHex4 device.idVendor) (toHex4 device.idProduct) cached,
        state := st, fallbackCalls := 0 } := by
  simp only [stringifyDevice, h]

lemma stringifyDevice_miss (lsusb : String → String → Except Unit DeviceStrings)
    (st : USBState) (device : Device)
    (h : recordGet st.deviceStringCache
      (cacheKey (toHex4 device.idVendor) (toHex4 device.idProduct)) = none) :
    stringifyDevice lsusb st device = stringifyMiss lsusb st device := by
  simp only [stringifyDevice, h]

lemma stringifyDevice_state_fields (lsusb : String → String → Except Unit DeviceStrings)
    (st : USBState) (device : Device) :
    (stringifyDevice lsusb st device).state.linuxDeviceDatabase = st.linuxDeviceDatabase ∧
    (stringifyDevice lsusb st device).state.devices = st.devices ∧
    (stringifyDevice lsusb st device).state.passedThroughDevices = st.passedThroughDevices ∧
    (stringifyDevice lsusb st device).state.qmpAttached = st.qmpAttached ∧
    (stringifyDevice lsusb st device).state.guestOnline = st.guestOnline := by
  cases h : recordGet st.deviceStringCache
      (cacheKey (toHex4 device.idVendor) (toHex4 device.idProduct)) with
  | none => rw [stringifyDevice_miss lsusb st device h]; exact ⟨rfl, rfl, rfl, rfl, rfl⟩
  | some cached => rw [stringifyDevice_hit lsusb st device cached h]; exact ⟨rfl, rfl, rfl, rfl, rfl⟩

lemma stringifyDevice_caches_key (lsusb : String → String → Except Unit DeviceStrings)
    (st : USBState) (device : Device) :
    ∃ ds, recordGet (stringifyDevice lsusb st device).state.deviceStringCache
      (cacheKey (toHex4 device.idVendor) (toHex4 device.idProduct)) = some ds := by
  cases h : recordGet st.deviceStringCache
      (cacheKey (toHex4 device.idVendor) (toHex4 device.idProduct)) with
  | none =>
    rw [stringifyDevice_miss lsusb st device h]
    exact ⟨_, recordGet_recordSet_self _ _ _⟩
  | some cached =>
    rw [stringifyDevice_hit lsusb st device cached h]
    exact ⟨cached, h⟩

/-- The reconciliation loop of lines 98-103 issues, in list order,
exactly one add call for each record that is connected and not reported
attached, and none for the rest. -/
lemma guestOnlineReconcile_eq (st : USBState) :
    guestOnlineReconcile st =
      (st.passedThroughDevices.filter fun ptDevice =>
        isPTDeviceConnected st ptDevice
          && !(QMPCheckIfDeviceExists st ptDevice.vendorId ptDevice.productId)).map
        fun ptDevice => QMPCall.add ptDevice.vendorId ptDevice.productId := by
  have aux : ∀ (l : List PTSerializableDeviceInfo) (acc : List QMPCall),
      l.foldl
        (fun acc ptDevice =>
          if isPTDeviceConnected st ptDevice
              && !(QMPCheckIfDeviceExists st ptDevice.vendorId ptDevice.productId) then
            acc ++ [QMPCall.add ptDevice.vendorId ptDevice.productId]
          else acc)
        acc
      = acc ++ (l.filter fun ptDevice =>
          isPTDeviceConnected st ptDevice
            && !(QMPCheckIfDeviceExists st ptDevice.vendorId ptDevice.productId)).map
          fun ptDevice => QMPCall.add ptDevice.vendorId ptDevice.productId := by
    intro l
    induction l with
    | nil => intro acc; simp
    | cons hd tl ih =>
      intro acc
      cases hconn : isPTDeviceConnected st hd <;>
        cases hq : QMPCheckIfDeviceExists st hd.vendorId hd.productId <;>
          simp only [List.foldl_cons, List.filter_cons, hconn, hq, Bool.false_and,
            Bool.true_and, Bool.not_true, Bool.not_false, Bool.and_false, Bool.and_true,
            Bool.false_eq_true, if_false, eq_self_iff_true, if_true] <;>
          first
            | exact ih acc
            | (rw [ih (acc ++ [QMPCall.add hd.vendorId hd.productId])]
               simp [List.append_assoc])
  have h := aux st.passedThroughDevices []
  simp only [List.nil_append] at h
  exact h

lemma isDeviceInPassthroughList_after_stringify
    (lsusb : String → String → Except Unit DeviceStrings) (st : USBState) (device : Device) :
    isDeviceInPassthroughList (stringifyDevice lsusb st device).state device =
      Except.ok (st.passedThroughDevices.any fun d =>
        d.vendorId == device.idVendor && d.productId == device.idProduct) := by
  obtain ⟨ds, hds⟩ := stringifyDevice_caches_key lsusb st device
  have hpt := (stringifyDevice_state_fields lsusb st device).2.2.1
  simp only [isDeviceInPassthroughList, convertDeviceToPTSerializable, hds, hpt]

/-- C4: converting a live device to a passthrough record fails with the
"strings not resolved" precondition error exactly when the Device String
Cache has no entry for the device's identifier pair; with a cache entry
present, it succeeds and the record carries the device's vendorId and
productId and the cached manufacturer/product strings. -/
theorem convertDevice_cache_precondition (st : USBState) (device : Device) :
    (recordGet st.deviceStringCache
        (cacheKey (toHex4 device.idVendor) (toHex4 device.idProduct)) = none →
      convertDeviceToPTSerializable st device =
        Except.error (USBError.stringsNotResolved
          (cacheKey (toHex4 device.idVendor) (toHex4 device.idProduct)))) ∧
    (∀ ds, recordGet st.deviceStringCache
        (cacheKey (toHex4 device.idVendor) (toHex4 device.idProduct)) = some ds →
      convertDeviceToPTSerializable st device =
        Except.ok ⟨device.idVendor, device.idProduct, ds.manufacturer, ds.product⟩) := by
  constructor
  · intro h
    simp only [convertDeviceToPTSerializable, h]
  · intro ds h
    simp only [convertDeviceToPTSerializable, h]

theorem convertDevice_cache_precondition_witness :
    convertDeviceToPTSerializable emptyUSBState logitechDevice =
      Except.error (USBError.stringsNotResolved (cacheKey "046d" "c52b")) ∧
    convertDeviceToPTSerializable resolvedCacheScenario logitechDevice =
      Except.ok ⟨0x046d, 0xc52b, some "Logitech", some "Unifying Receiver"⟩ := by
  constructor
  · exact (convertDevice_cache_precondition emptyUSBState logitechDevice).1 (by decide)
  · exact (convertDevice_cache_precondition resolvedCacheScenario logitechDevice).2
      logitechStrings (by decide)

/-- C3: adding a device whose (vendorId, productId) pair already has a
record in the passthrough list (and whose strings are resolved, as the
conversion precondition requires) throws the duplicate error, leaves the
state — in particular the passthrough list — unchanged, and issues no VM
control call. -/
theorem addDevice_duplicate_rejected (st : USBState) (device : Device) (ds : DeviceStrings)
    (hcache : recordGet st.deviceStringCache
      (cacheKey (toHex4 device.idVendor) (toHex4 device.idProduct)) = some ds)
    (hdup : (st.passedThroughDevices.any fun d =>
      d.vendorId == device.idVendor && d.productId == device.idProduct) = true) :
    addDeviceToPassthroughList st device =
      { state := st, calls := [],
        thrown := some (USBError.duplicateDevice ds.manufacturer ds.product) } := by
  simp only [addDeviceToPassthroughList, convertDeviceToPTSerializable, hcache, hdup,
    eq_self_iff_true, if_true]

theorem addDevice_duplicate_rejected_witness :
    addDeviceToPassthroughList duplicateAddScenario logitechDevice =
      { state := duplicateAddScenario, calls := [],
        thrown := some (USBError.duplicateDevice (some "Logitech") (some "Unifying Receiver")) } :=
  addDevice_duplicate_rejected duplicateAddScenario logitechDevice logitechStrings
    (by decide) (by decide)

/-- C5: once a resolution of an identifier pair has completed, a
subsequent resolution of the same pair — under any lsusb oracle, even
one that would fail — performs zero live-fallback invocations, leaves
the state untouched, and returns the string formatted from the cached
entry. -/
theorem stringify_second_call_uses_cache
    (lsusb lsusb2 : String → String → Except Unit DeviceStrings)
    (st : USBState) (device : Device) :
    (stringifyDevice lsusb2 (stringifyDevice lsusb st device).state device).fallbackCalls = 0 ∧
    (stringifyDevice lsusb2 (stringifyDevice lsusb st device).state device).state =
      (stringifyDevice lsusb st device).state ∧
    ∃ ds, recordGet (stringifyDevice lsusb st device).state.deviceStringCache
        (cacheKey (toHex4 device.idVendor) (toHex4 device.idProduct)) = some ds ∧
      (stringifyDevice lsusb2 (stringifyDevice lsusb st device).state device).display =
        formatCached (toHex4 device.idVendor) (toHex4 device.idProduct) ds := by
  obtain ⟨ds, hds⟩ := stringifyDevice_caches_key lsusb st device
  rw [stringifyDevice_hit lsusb2 _ device ds hds]
  exact ⟨rfl, rfl, ds, hds, rfl⟩

/-- C1: the claim fails on the code.  The passthrough list holds exactly
the record with pair (1, 2); removing the record with the different pair
(1, 3) — a pair not present in the list — empties the list, because the
filter of lines 223-225 keeps a record only when BOTH identifier fields
differ, so it drops every record sharing just a vendorId (or just a
productId) with the argument.  (No VM call is issued here since the VM
reports nothing attached.) -/
theorem removeDevice_nonpresent_pair_clears_list :
    statePair12.passedThroughDevices = [recordPair12] ∧
    ¬(recordPair12.vendorId = recordPair13.vendorId ∧
      recordPair12.productId = recordPair13.productId) ∧
    (removeDeviceFromPassthroughList statePair12 recordPair13).state.passedThroughDevices = [] ∧
    (removeDeviceFromPassthroughList statePair12 recordPair13).calls = [] := by
  decide

/-- C2: the claim fails on the code.  In a state where the guest online
signal has just transitioned to true, the persisted Logitech record is
connected and the VM reports nothing attached, the reconciliation body
(lines 93-104) would issue exactly one add call — but the program issues
none, because the constructor (lines 40-54) never invokes
`#setupGuestOnlineListener`, so no watcher for the online signal is ever
registered.  The final conjunct shows that with the watcher registered
the transition issues, in list order, exactly one add call per connected
not-yet-attached record and none for the others. -/
theorem guestOnlineListener_never_registered :
    onGuestOnlineTransition constructorRegisteredListeners guestOnlineScenario = [] ∧
    guestOnlineReconcile guestOnlineScenario = [QMPCall.add 0x046d 0xc52b] ∧
    isPTDeviceConnected guestOnlineScenario logitechRecord = true ∧
    QMPCheckIfDeviceExists guestOnlineScenario 0x046d 0xc52b = false ∧
    (∀ st, onGuestOnlineTransition (setupUpdateListenersRegs ++ setupGuestOnlineListenerRegs) st =
      (st.passedThroughDevices.filter fun ptDevice =>
        isPTDeviceConnected st ptDevice
          && !(QMPCheckIfDeviceExists st ptDevice.vendorId ptDevice.productId)).map
        fun ptDevice => QMPCall.add ptDevice.vendorId ptDevice.productId) := by
  refine ⟨by decide, by decide, by decide, by decide, ?_⟩
  intro st
  have hreg : ((setupUpdateListenersRegs ++ setupGuestOnlineListenerRegs).contains
      ListenerKind.guestOnline) = true := by decide
  simp only [onGuestOnlineTransition, hreg, if_true]
  exact guestOnlineReconcile_eq st

/-- C6: when the identifier pair is not yet cached and the static
database holds both a (nonempty) vendor name and a (nonempty) product
name for it, resolution performs zero lsusb fallback invocations,
returns the database's names formatted as
"[vidHex:pidHex] Vendor | Product", and caches exactly those names. -/
theorem stringify_database_hit_no_fallback
    (lsusb : String → String → Except Unit DeviceStrings)
    (st : USBState) (device : Device) (ve : VendorEntry) (pname : String)
    (hcache : recordGet st.deviceStringCache
      (cacheKey (toHex4 device.idVendor) (toHex4 device.idProduct)) = none)
    (hv : recordGet st.linuxDeviceDatabase (toHex4 device.idVendor) = some ve)
    (hvn : ve.name ≠ "")
    (hp : recordGet ve.devices (toHex4 device.idProduct) = some pname)
    (hpn : pname ≠ "") :
    (stringifyDevice lsusb st device).display =
      "[" ++ toHex4 device.idVendor ++ ":" ++ toHex4 device.idProduct ++ "] "
        ++ ve.name ++ " | " ++ pname ∧
    (stringifyDevice lsusb st device).fallbackCalls = 0 ∧
    (stringifyDevice lsusb st device).state.deviceStringCache =
      recordSet st.deviceStringCache
        (cacheKey (toHex4 device.idVendor) (toHex4 device.idProduct))
        { manufacturer := some ve.name, product := some pname } := by
  have hps : fallbackProductStep lsusb (toHex4 device.idVendor) (toHex4 device.idProduct)
      (dbProductLookup (recordGet st.linuxDeviceDatabase (toHex4 device.idVendor))
        (toHex4 device.idProduct)) = (some pname, 0) := by
    simp [dbProductLookup, hv, hp, fallbackProductStep, optTruthy, strTruthy, hpn]
  have hvs : fallbackVendorStep lsusb (toHex4 device.idVendor) (toHex4 device.idProduct)
      (recordGet st.linuxDeviceDatabase (toHex4 device.idVendor)) = (some ve, 0) := by
    simp [hv, fallbackVendorStep, optTruthy, strTruthy, hvn]
  rw [stringifyDevice_miss lsusb st device hcache]
  simp only [stringifyMiss, hps, hvs]
  refine ⟨?_, ?_, ?_⟩ <;>
    simp [missDisplay, storedEntry, orNull, strTruthy, hvn, hpn]

theorem stringify_database_hit_no_fallback_witness :
    (stringifyDevice failingLsusb logitechState logitechDevice).display =
      "[046d:c52b] Logitech | Unifying Receiver" ∧
    (stringifyDevice failingLsusb logitechState logitechDevice).fallbackCalls = 0 := by
  have h := stringify_database_hit_no_fallback failingLsusb logitechState logitechDevice
    logitechEntry "Unifying Receiver" (by decide) (by decide) (by decide) (by decide) (by decide)
  exact ⟨by rw [h.1]; rfl, h.2.1⟩

/-- C7: on a hotplug event the attach handler issues an add call if and
only if the guest is online, the device's identifier pair is in the
passthrough list, and the VM does not already report the device
attached; symmetrically the detach handler issues a remove call iff the
guest is online, the pair is in the list, and the VM does report the
device attached.  In particular, with the guest offline neither handler
issues any VM call. -/
theorem hotplug_handlers_guard (lsusb : String → String → Except Unit DeviceStrings)
    (newDevices : List Device) (st : USBState) (device : Device) :
    (onAttach lsusb newDevices st device).2 =
      (if st.guestOnline
          && (st.passedThroughDevices.any fun d =>
            d.vendorId == device.idVendor && d.productId == device.idProduct)
          && !(QMPCheckIfDeviceExists st device.idVendor device.idProduct) then
        [QMPCall.add device.idVendor device.idProduct]
      else []) ∧
    (onDetach lsusb newDevices st device).2 =
      (if st.guestOnline
          && (st.passedThroughDevices.any fun d =>
            d.vendorId == device.idVendor && d.productId == device.idProduct)
          && QMPCheckIfDeviceExists st device.idVendor device.idProduct then
        [QMPCall.remove device.idVendor device.idProduct]
      else []) := by
  obtain ⟨-, -, hpt, hqmp, hon⟩ :=
    stringifyDevice_state_fields lsusb { st with devices := newDevices } device
  have hmem := isDeviceInPassthroughList_after_stringify lsusb { st with devices := newDevices } device
  constructor
  · simp only [onAttach, hmem, hon, QMPCheckIfDeviceExists, hqmp]
    cases hA : st.guestOnline <;>
      cases hB : st.passedThroughDevices.any fun d =>
        d.vendorId == device.idVendor && d.productId == device.idProduct <;>
      simp [hA, hB]
    all_goals (split <;> simp_all)
  · simp only [onDetach, hmem, hon, QMPCheckIfDeviceExists, hqmp]
    cases hA : st.guestOnline <;>
      cases hB : st.passedThroughDevices.any fun d =>
        d.vendorId == device.idVendor && d.productId == device.idProduct <;>
      simp [hA, hB]
    all_goals (split <;> simp_all)

/-- C9: resolution never fails the caller.  When every lsusb invocation
fails, the run is identical to a run whose fallback succeeds with no
information (the failure is caught and treated as "no additional
information"), a cache entry is still stored for the pair, and — when
nothing was cached and the static database has no vendor entry, so both
fields are missing — the formatted result degrades to
"Unknown Vendor" / "Unknown Product". -/
theorem stringify_fallback_failure_recovered
    (lsusb : String → String → Except Unit DeviceStrings) (st : USBState) (device : Device)
    (hfail : ∀ a b, lsusb a b = Except.error ()) :
    stringifyDevice lsusb st device = stringifyDevice noInfoLsusb st device ∧
    (∃ ds, recordGet (stringifyDevice lsusb st device).state.deviceStringCache
      (cacheKey (toHex4 device.idVendor) (toHex4 device.idProduct)) = some ds) ∧
    (recordGet st.deviceStringCache
        (cacheKey (toHex4 device.idVendor) (toHex4 device.idProduct)) = none →
      recordGet st.linuxDeviceDatabase (toHex4 device.idVendor) = none →
      (stringifyDevice lsusb st device).display =
        "[" ++ toHex4 device.idVendor ++ ":" ++ toHex4 device.idProduct
          ++ "] Unknown Vendor | Unknown Product") := by
  have hds : ∀ a b, getDeviceStringsFromLsusb lsusb a b = getDeviceStringsFromLsusb noInfoLsusb a b := by
    intro a b
    simp [getDeviceStringsFromLsusb, hfail a b, noInfoLsusb]
  refine ⟨?_, stringifyDevice_caches_key lsusb st device, ?_⟩
  · cases h : recordGet st.deviceStringCache
        (cacheKey (toHex4 device.idVendor) (toHex4 device.idProduct)) with
    | some cached =>
      rw [stringifyDevice_hit lsusb st device cached h,
        stringifyDevice_hit noInfoLsusb st device cached h]
    | none =>
      rw [stringifyDevice_miss lsusb st device h, stringifyDevice_miss noInfoLsusb st device h]
      simp only [stringifyMiss, fallbackProductStep, fallbackVendorStep, hds]
  · intro hc hdb
    rw [stringifyDevice_miss lsusb st device hc]
    simp [stringifyMiss, hdb, dbProductLookup, fallbackProductStep, fallbackVendorStep,
      optTruthy, getDeviceStringsFromLsusb, hfail, missDisplay]
    simp only [String.append_assoc]
    rfl

theorem stringify_fallback_failure_recovered_witness :
    stringifyDevice failingLsusb emptyUSBState ⟨1, 2⟩ =
      stringifyDevice noInfoLsusb emptyUSBState ⟨1, 2⟩ ∧
    (stringifyDevice failingLsusb emptyUSBState ⟨1, 2⟩).display =
      "[0001:0002] Unknown Vendor | Unknown Product" := by
  have h := stringify_fallback_failure_recovered failingLsusb emptyUSBState ⟨1, 2⟩
    (fun a b => rfl)
  exact ⟨h.1, (h.2.2 rfl rfl).trans (by decide)⟩

lemma fallbackVendorStep_fst_name_ne (lsusb : String → String → Except Unit DeviceStrings)
    (vh ph : String) (vendor0 : Option VendorEntry)
    (hdb : ∀ w, vendor0 = some w → w.name ≠ "") :
    ∀ ve, (fallbackVendorStep lsusb vh ph vendor0).1 = some ve → ve.name ≠ "" := by
  intro ve h
  unfold fallbackVendorStep at h
  by_cases ht : optTruthy (vendor0.map VendorEntry.name)
  · rw [if_pos ht] at h
    exact hdb ve h
  · rw [if_neg ht] at h
    simp only at h
    cases hm : (getDeviceStringsFromLsusb lsusb vh ph).manufacturer with
    | none =>
      simp only [hm] at h
      exact hdb ve h
    | some m =>
      simp only [hm] at h
      by_cases hs : strTruthy m
      · rw [if_pos hs] at h
        cases h
        simpa [strTruthy] using hs
      · rw [if_neg hs] at h
        exact hdb ve h

lemma formatCached_storedEntry (vh ph : String)
    (vendor1 : Option VendorEntry) (product1 : Option String)
    (hv : ∀ ve, vendor1 = some ve → ve.name ≠ "") :
    formatCached vh ph (storedEntry vendor1 product1) = missDisplay vh ph vendor1 product1 := by
  cases vendor1 with
  | none =>
    cases product1 with
    | none => rfl
    | some p =>
      by_cases hp : strTruthy p <;>
        simp [formatCached, storedEntry, missDisplay, orNull, orElseStr, hp]
  | some ve =>
    have hne : strTruthy ve.name = true := by
      simpa [strTruthy] using hv ve rfl
    cases product1 with
    | none => simp [formatCached, storedEntry, missDisplay, orNull, orElseStr, hne]
    | some p =>
      by_cases hp : strTruthy p <;>
        simp [formatCached, storedEntry, missDisplay, orNull, orElseStr, hne, hp]

/-- C10 (as amended): the display string returned by the first
resolution of a pair equals the display string returned by subsequent
(cache-hit) resolutions, whenever any static-database vendor entry for
the pair has a nonempty name.  (With an empty-named database vendor
entry and no fallback manufacturer the two differ — see the
counterexample.) -/
theorem stringify_first_and_cached_display_agree
    (lsusb lsusb2 : String → String → Except Unit DeviceStrings)
    (st : USBState) (device : Device)
    (hfirst : recordGet st.deviceStringCache
      (cacheKey (toHex4 device.idVendor) (toHex4 device.idProduct)) = none)
    (hdb : ∀ ve, recordGet st.linuxDeviceDatabase (toHex4 device.idVendor) = some ve →
      ve.name ≠ "") :
    (stringifyDevice lsusb2 (stringifyDevice lsusb st device).state device).display =
      (stringifyDevice lsusb st device).display := by
  rw [stringifyDevice_miss lsusb st device hfirst]
  have hkey : recordGet (stringifyMiss lsusb st device).state.deviceStringCache
      (cacheKey (toHex4 device.idVendor) (toHex4 device.idProduct)) =
      some (storedEntry
        (fallbackVendorStep lsusb (toHex4 device.idVendor) (toHex4 device.idProduct)
          (recordGet st.linuxDeviceDatabase (toHex4 device.idVendor))).1
        (fallbackProductStep lsusb (toHex4 device.idVendor) (toHex4 device.idProduct)
          (dbProductLookup (recordGet st.linuxDeviceDatabase (toHex4 device.idVendor))
            (toHex4 device.idProduct))).1) := by
    simp only [stringifyMiss]
    exact recordGet_recordSet_self _ _ _
  rw [stringifyDevice_hit lsusb2 _ device _ hkey]
  simp only [stringifyMiss]
  exact formatCached_storedEntry _ _ _ _
    (fallbackVendorStep_fst_name_ne lsusb _ _ _ hdb)

theorem stringify_first_and_cached_display_agree_witness :
    (stringifyDevice failingLsusb
        (stringifyDevice failingLsusb logitechState logitechDevice).state logitechDevice).display =
      (stringifyDevice failingLsusb logitechState logitechDevice).display := by
  refine stringify_first_and_cached_display_agree failingLsusb failingLsusb
    logitechState logitechDevice (by decide) ?_
  intro ve h
  have hl : recordGet logitechState.linuxDeviceDatabase (toHex4 logitechDevice.idVendor) =
      some logitechEntry := by decide
  rw [hl] at h
  injection h with h2
  rw [← h2]
  decide

/-- C10 counterexample: with a database vendor entry whose name is the
empty string (as the loader produces from a vendor line whose name part
is all whitespace) and a failing fallback, the first call renders an
empty vendor field while every later, cache-hit call renders
"Unknown Vendor" — the two display strings differ. -/
theorem stringify_first_and_cached_display_disagree :
    (stringifyDevice failingLsusb emptyNameState emptyNameDevice).display =
      "[aaaa:0001]  | Unknown Product" ∧
    (stringifyDevice failingLsusb
        (stringifyDevice failingLsusb emptyNameState emptyNameDevice).state
        emptyNameDevice).display =
      "[aaaa:0001] Unknown Vendor | Unknown Product" ∧
    (stringifyDevice failingLsusb emptyNameState emptyNameDevice).display ≠
      (stringifyDevice failingLsusb
        (stringifyDevice failingLsusb emptyNameState emptyNameDevice).state
        emptyNameDevice).display := by
  refine ⟨by decide, by decide, by decide⟩

lemma isJsWS_not_hex (c : Char) (h : isJsWS c = true) : isHexDigitCI c = false := by
  unfold isJsWS at h
  rcases Bool.or_eq_true_iff.mp h with h | h
  · rcases Bool.or_eq_true_iff.mp h with h | h
    · rcases Bool.or_eq_true_iff.mp h with h | h
      · rcases Bool.or_eq_true_iff.mp h with h | h
        · rw [eq_of_beq h]; decide
        · rw [eq_of_beq h]; decide
      · rw [eq_of_beq h]; decide
    · rw [eq_of_beq h]; decide
  · rw [eq_of_beq h]; decide

lemma matchIdLine_nil : matchIdLine [] = none := by decide

lemma matchIdLine_head_not_hex (c : Char) (l : List Char) (h : isHexDigitCI c = false) :
    matchIdLine (c :: l) = none := by
  have hnc : ¬(((c :: l).take 4).length = 4 ∧ ((c :: l).take 4).all isHexDigitCI) := by
    rintro ⟨-, hall⟩
    have hc : isHexDigitCI c = true :=
      List.all_eq_true.mp hall c (by simp [List.take_succ_cons])
    rw [h] at hc
    exact Bool.false_ne_true hc
  simp only [matchIdLine, hnc, if_false]

lemma allWS_matchIdLine_none (l : List Char) (h : l.all isJsWS = true) :
    matchIdLine l = none := by
  cases l with
  | nil => exact matchIdLine_nil
  | cons c rest =>
    have hc : isJsWS c = true := by
      have := List.all_eq_true.mp h c (List.mem_cons_self c rest)
      exact this
    exact matchIdLine_head_not_hex c rest (isJsWS_not_hex c hc)

lemma jsTrim_nil_all (l : List Char) (h : jsTrim l = []) : l.all isJsWS = true := by
  unfold jsTrim at h
  have h1 : (l.dropWhile isJsWS).reverse.dropWhile isJsWS = [] := by
    rwa [List.reverse_eq_nil_iff] at h
  have h3 : ∀ a ∈ l.dropWhile isJsWS, isJsWS a := by
    intro a ha
    exact List.dropWhile_eq_nil_iff.mp h1 a (List.mem_reverse.mpr ha)
  rw [List.all_eq_true]
  intro a ha
  rw [← List.takeWhile_append_dropWhile (p := isJsWS) (l := l)] at ha
  rcases List.mem_append.mp ha with ha | ha
  · exact List.mem_takeWhile_imp ha
  · exact h3 a ha

lemma readDBStep_eq_specParseStep (acc : LinuxDeviceDatabase × Option String) (line : String) :
    readDBStep acc line = specParseStep acc line := by
  simp only [readDBStep, specParseStep]
  by_cases h1 : line.data.head? = some '#' ∨ jsTrim line.data = []
  · rw [if_pos h1]
    rcases h1 with hh | hb
    · -- a line beginning with '#': the spec side's vendor branch sees a
      -- non-hex first character, so its match fails and it contributes
      -- nothing as well
      cases hl : line.data with
      | nil => rw [hl] at hh; exact absurd hh (by simp)
      | cons c rest =>
        rw [hl] at hh
        have hc : c = '#' := by
          simpa using hh
        subst hc
        simp [matchIdLine_head_not_hex '#' rest (by decide)]
    · -- a blank line: every character is whitespace, so no branch of the
      -- spec side can match either
      have hall := jsTrim_nil_all line.data hb
      cases hl : line.data with
      | nil => simp [matchIdLine_nil]
      | cons c rest =>
        rw [hl] at hall
        have hc : isJsWS c = true := List.all_eq_true.mp hall c (List.mem_cons_self c rest)
        have hrest : rest.all isJsWS = true := by
          rw [List.all_eq_true]
          intro a ha
          exact List.all_eq_true.mp hall a (List.mem_cons_of_mem c ha)
        by_cases hct : c = '\t'
        · subst hct
          cases rest with
          | nil => simp [matchIdLine_nil]
          | cons c2 r2 =>
            by_cases hc2 : c2 = '\t'
            · subst hc2; simp
            · have hw2 : isJsWS c2 = true :=
                List.all_eq_true.mp hrest c2 (List.mem_cons_self c2 r2)
              simp [hc2, matchIdLine_head_not_hex c2 r2 (isJsWS_not_hex c2 hw2)]
        · simp [hct, matchIdLine_head_not_hex c rest (isJsWS_not_hex c hc)]
  · rw [if_neg h1]

/-- C8: for every input text the database loader produces exactly the
mapping of the spec's §4.1 parsing rule — a non-indented line with a
4-hex-digit token, whitespace and a name opens a new vendor section
keyed by the lowercase identifier; a line indented by exactly one tab
with such a token, whitespace and a name adds a product to the most
recently opened vendor section; lines beginning with '#', blank lines,
lines with two or more leading tabs, and malformed lines contribute
nothing. -/
theorem readLinuxDeviceDatabase_matches_spec_rule (content : String) :
    readLinuxDeviceDatabase content = specParseDatabase content := by
  unfold readLinuxDeviceDatabase specParseDatabase
  have h : readDBStep = specParseStep :=
    funext fun acc => funext fun line => readDBStep_eq_specParseStep acc line
  rw [h]
